import Mathlib

/-!
Verification of the template9 marketplace backend (src/app.js): the favorite
toggle manager, the session gate, the token service contract, and the error
handling of the request handlers, shallowly embedded as pure Lean functions.
Users and cars are keyed by string ids; the credential store is an association
list; time is a natural-number instant.
-/

/-- A user record as stored by `userSchema` (src/app.js lines 106-139): unique
name, lowercase email, plaintext password, and a list of favorite car ids. -/
structure User where
  name : String
  email : String
  password : String
  favorites : List String
deriving DecidableEq, Repr

/-- A car listing record (src/app.js lines 50-101), reduced to the fields the
favorites expansion needs. -/
structure Car where
  model : String
  make : String
  carOwnerEmail : String
deriving DecidableEq, Repr

/-- The credential store: user documents keyed by id. -/
abbrev Store := List (String × User)

/-- The listing store: car documents keyed by id. -/
abbrev CarStore := List (String × Car)

/-- `User.findById` (src/app.js lines 256, 294, 300, 395): look a user up by id. -/
def findById (store : Store) (id : String) : Option User :=
  (store.find? (fun p => p.1 == id)).map (fun p => p.2)

/-- `user.save()` on a fetched document (src/app.js line 272): write the updated
document back under its id, leaving every other document unchanged. -/
def saveUser (store : Store) (id : String) (u : User) : Store :=
  store.map (fun p => if p.1 == id then (id, u) else p)

/-- The favorite-toggle computation of PATCH /favoriteCar/:carId (src/app.js
lines 262-270): `includes` membership test; if present, `filter` the id out,
otherwise `push` it at the end. -/
def toggle (favorites : List String) (carId : String) : List String :=
  if favorites.contains carId then
    favorites.filter (fun id => id != carId)
  else
    favorites ++ [carId]

/-- Responses of PATCH /favoriteCar/:carId (src/app.js lines 258-279). -/
inductive FavResponse where
  | notFound404 (message : String)
  | ok (message : String) (favorites : List String)
  | error500 (message : String)
deriving DecidableEq, Repr

/-- The PATCH /favoriteCar/:carId handler body (src/app.js lines 251-281):
look the user up by the request body's `userId`; 404 if absent; otherwise
toggle `carId` in the favorites, persist with `user.save()`, and answer with
the updated favorites. `saveOk` models whether persistence succeeds; on
failure the catch answers 500 and the store is untouched. -/
def favoriteCarHandler (store : Store) (carId userId : String) (saveOk : Bool) :
    Store × FavResponse :=
  match findById store userId with
  | none => (store, FavResponse.notFound404 "User not found")
  | some user =>
    let favorites := toggle user.favorites carId
    let updated : User := { user with favorites := favorites }
    if saveOk then
      (saveUser store userId updated, FavResponse.ok "Car favorited" favorites)
    else
      (store, FavResponse.error500 "Error updating favorite status")

/-- Modelled from the spec: the Token Service of §4.1. The reference delegates
to the external `jsonwebtoken` library (src/app.js lines 362 and 387), whose
code is not part of this repository, so the spec's contract is embedded:
`issue` signs a payload carrying the identity id and an expiry of now + ttl
with a secret key; `verify` recomputes the keyed signature, rejects a mismatch
or an expired token, and otherwise returns the embedded identity id. The keyed
signature is modelled as a perfect MAC, the (key, payload) tuple itself; every
token is structurally well formed, so the Malformed failure does not arise. -/
structure Token where
  id : String
  exp : Nat
  sig : String × String × Nat
deriving DecidableEq, Repr

/-- The keyed signature over an (identity id, expiry) payload. -/
def mac (key identityId : String) (exp : Nat) : String × String × Nat :=
  (key, identityId, exp)

/-- Token issuance, `jwt.sign` at src/app.js line 362: expiry is now + ttl. -/
def issue (identityId key : String) (now ttl : Nat) : Token :=
  { id := identityId, exp := now + ttl, sig := mac key identityId (now + ttl) }

/-- Verification failures of spec §4.1. -/
inductive VerificationError where
  | badSignature
  | expired
deriving DecidableEq, Repr

/-- Token verification, `jwt.verify` at src/app.js lines 293 and 387. -/
def verify (t : Token) (key : String) (now : Nat) :
    Except VerificationError String :=
  if t.sig ≠ mac key t.id t.exp then Except.error VerificationError.badSignature
  else if t.exp ≤ now then Except.error VerificationError.expired
  else Except.ok t.id

/-- A fetched user document as it appears in a response: the credential field
is `none` exactly when the query excluded it with `.select("-password")`. -/
structure UserDoc where
  name : String
  email : String
  password : Option String
  favorites : List String
deriving DecidableEq, Repr

/-- A fetch without field exclusion: the credential is present. -/
def fullDoc (u : User) : UserDoc :=
  { name := u.name, email := u.email, password := some u.password,
    favorites := u.favorites }

/-- A fetch through `.select("-password")`: the credential is stripped. -/
def selectNoPassword (u : User) : UserDoc :=
  { name := u.name, email := u.email, password := none,
    favorites := u.favorites }

/-- The first fetch of GET /favorites (src/app.js line 294): by the verified
id, with `.select("-password")`. -/
def favoritesFirstFetch (store : Store) (id : String) : Option UserDoc :=
  (findById store id).map selectNoPassword

/-- The re-fetch of GET /favorites (src/app.js line 300): by the same id, with
no field exclusion. -/
def favoritesRefetch (store : Store) (id : String) : Option UserDoc :=
  (findById store id).map fullDoc

/-- The single fetch of GET /getUser (src/app.js line 395): no field
exclusion. -/
def getUserFetch (store : Store) (id : String) : Option UserDoc :=
  (findById store id).map fullDoc

/-- Responses of GET /getUser (src/app.js lines 377-410). -/
inductive GetUserResponse where
  | notAuthenticated
  | invalidOrExpired401
  | userGone404
  | currentUser (doc : UserDoc)
deriving DecidableEq, Repr

/-- The GET /getUser handler (src/app.js lines 377-410): reject a missing jwt
cookie with "Not authenticated"; verify the token, any verification failure
answering 401 "Invalid or expired token"; look the verified id up, a vanished
user answering 404; otherwise answer with the full user document. -/
def getUserHandler (store : Store) (cookieJwt : Option Token) (key : String)
    (now : Nat) : GetUserResponse :=
  match cookieJwt with
  | none => GetUserResponse.notAuthenticated
  | some t =>
    match verify t key now with
    | Except.error _ => GetUserResponse.invalidOrExpired401
    | Except.ok id =>
      match getUserFetch store id with
      | none => GetUserResponse.userGone404
      | some doc => GetUserResponse.currentUser doc

/-- Responses of GET /favorites (src/app.js lines 284-315). -/
inductive FavListResponse where
  | mustLogIn
  | invalidToken401
  | userNotFound401
  | userNotFound404
  | okFavorites (cars : List Car)
deriving DecidableEq, Repr

/-- `.populate("favorites")` (src/app.js line 300): resolve each favorite id
to its car document; ids whose car no longer exists are omitted. -/
def populateFavorites (cars : CarStore) (ids : List String) : List Car :=
  ids.filterMap (fun id => (cars.find? (fun p => p.1 == id)).map (fun p => p.2))

/-- The GET /favorites handler (src/app.js lines 284-315): reject a missing
cookie; verify the token, a thrown verification error reaching the catch and
answering 401 "Invalid token"; fetch the user with `.select("-password")`,
a missing user answering 401; re-fetch without exclusion and populate;
answer with the populated favorites. -/
def favoritesHandler (store : Store) (cars : CarStore) (cookieJwt : Option Token)
    (key : String) (now : Nat) : FavListResponse :=
  match cookieJwt with
  | none => FavListResponse.mustLogIn
  | some t =>
    match verify t key now with
    | Except.error _ => FavListResponse.invalidToken401
    | Except.ok id =>
      match favoritesFirstFetch store id with
      | none => FavListResponse.userNotFound401
      | some _reqUser =>
        match favoritesRefetch store id with
        | none => FavListResponse.userNotFound404
        | some user =>
          FavListResponse.okFavorites (populateFavorites cars user.favorites)

/-- Result of the Session Gate of spec §4.2. -/
inductive GateResult where
  | noSession
  | invalidSession (e : VerificationError)
  | identityGone
  | authenticated (identityId : String)
deriving DecidableEq, Repr

/-- Modelled from the spec: the Session Gate middleware `isThereLoggedUser`
(required at src/app.js line 7 from ./middlewares, a file absent from this
repository snapshot), per spec §4.2: no session carrier rejects with
NoSession; any verification failure rejects with InvalidSession; a verified
id absent from the store rejects with IdentityGone; otherwise the request is
admitted as Authenticated(identityId). -/
def sessionGate (store : Store) (cookieJwt : Option Token) (key : String)
    (now : Nat) : GateResult :=
  match cookieJwt with
  | none => GateResult.noSession
  | some t =>
    match verify t key now with
    | Except.error e => GateResult.invalidSession e
    | Except.ok id =>
      match findById store id with
      | none => GateResult.identityGone
      | some _ => GateResult.authenticated id

/-- The full PATCH /favoriteCar/:carId route: the Session Gate runs first and
only an admitted request reaches the handler (src/app.js line 251). The
handler body reads only `req.params.carId` and `req.body.userId`, never the
gate's identity. `none` is a gate rejection. -/
def favoriteCarRoute (store : Store) (cookieJwt : Option Token) (key : String)
    (now : Nat) (carId userId : String) (saveOk : Bool) :
    Option (Store × FavResponse) :=
  match sessionGate store cookieJwt key now with
  | GateResult.authenticated _ => some (favoriteCarHandler store carId userId saveOk)
  | _ => none

/-- A storage-layer error value as a catch block sees it: its constructor
name, its driver code, and its message. -/
structure JsError where
  name : String
  code : Nat
  message : String
deriving DecidableEq, Repr

/-- The catch block of POST /sellACar (src/app.js lines 242-247): only an
error named ValidationError is answered; any other error yields no response
at all. -/
def sellACarCatch (e : JsError) : Option String :=
  if e.name == "ValidationError" then some e.message else none

/-- The catch block of POST /signup (src/app.js lines 336-343): ValidationError
and duplicate-key (code 11000) errors are answered; any other error yields no
response at all. -/
def signupCatch (e : JsError) : Option String :=
  if e.name == "ValidationError" then some e.message
  else if e.code == 11000 then some "That name is already taken!"
  else none

/-- A concrete user for closed instances. -/
def annUser : User :=
  { name := "ann", email := "a@x.com", password := "p1", favorites := [] }

/-- A second concrete user for closed instances. -/
def bobUser : User :=
  { name := "bob", email := "b@x.com", password := "p2", favorites := ["c9"] }

/-- A concrete two-user store for closed instances. -/
def demoStore : Store := [("u1", annUser), ("u2", bobUser)]

/-- A token whose signature was made with a different key. -/
def badToken : Token := { id := "u1", exp := 7, sig := mac "other" "u1" 7 }

-- Theorems ------------------------------------------------------------------

/-- Bridge between the boolean `includes` test and propositional membership. -/
theorem contains_iff_mem (l : List String) (a : String) :
    l.contains a = true ↔ a ∈ l := by
  simp

/-- Writing a user back under an id that resolves makes that id resolve to the
written document. -/
theorem findById_saveUser (store : Store) (id : String) (u' : User)
    (h : (findById store id).isSome) :
    findById (saveUser store id u') id = some u' := by
  induction store with
  | nil => simp [findById] at h
  | cons p ps ih =>
    by_cases hp : p.1 == id
    · simp [findById, saveUser, List.find?, hp]
    · simp only [findById, saveUser, List.map_cons, if_neg hp] at *
      rw [List.find?_cons_of_neg _ (by simpa using hp)] at h ⊢
      exact ih h

/-- Membership after one toggle: `x` is in the result exactly when it was a
member distinct from the toggled id, or it is the toggled id and was absent. -/
theorem mem_toggle (x : String) (S : List String) (r : String) :
    x ∈ toggle S r ↔ (x ∈ S ∧ x ≠ r) ∨ (x = r ∧ r ∉ S) := by
  unfold toggle
  by_cases hr : r ∈ S
  · rw [if_pos ((contains_iff_mem S r).mpr hr)]
    simp only [List.mem_filter, bne_iff_ne, ne_eq, decide_eq_true_eq]
    constructor
    · intro h
      exact Or.inl h
    · intro h
      rcases h with h | h
      · exact h
      · exact absurd hr h.2
  · rw [if_neg (by simpa using fun h => hr ((contains_iff_mem S r).mp (by simpa using h)))]
    simp only [List.mem_append, List.mem_singleton]
    constructor
    · intro h
      rcases h with h | h
      · by_cases hx : x = r
        · exact Or.inr ⟨hx, hr⟩
        · exact Or.inl ⟨h, hx⟩
      · exact Or.inr ⟨h, hr⟩
    · intro h
      rcases h with h | h
      · exact Or.inl h.1
      · exact Or.inr h.1

/-- A toggle never introduces a duplicate: it preserves `Nodup`. -/
theorem toggle_nodup (S : List String) (r : String) (h : S.Nodup) :
    (toggle S r).Nodup := by
  unfold toggle
  by_cases hr : r ∈ S
  · rw [if_pos ((contains_iff_mem S r).mpr hr)]
    exact h.filter _
  · rw [if_neg (by simpa using hr)]
    simp [List.nodup_append, h, hr]

/-- Folding any toggle sequence over a duplicate-free favorites list keeps it
duplicate-free. -/
theorem foldl_toggle_nodup (ops : List String) (S : List String) (h : S.Nodup) :
    (ops.foldl toggle S).Nodup := by
  induction ops generalizing S with
  | nil => simpa using h
  | cons r rest ih => exact ih (toggle S r) (toggle_nodup S r h)

/-- C1: the PATCH /favoriteCar/:carId toggle removes a member, adds a
non-member, leaves every other id untouched; the handler persists exactly the
toggled set and returns it; and the three concrete examples of the spec hold. -/
theorem favoriteToggle_correct (S : List String) (r : String) :
    (r ∈ S → r ∉ toggle S r) ∧
    (r ∉ S → r ∈ toggle S r) ∧
    (∀ x, x ≠ r → (x ∈ toggle S r ↔ x ∈ S)) ∧
    (∀ (store : Store) (carId userId : String) (u : User),
      findById store userId = some u →
      favoriteCarHandler store carId userId true =
        (saveUser store userId { u with favorites := toggle u.favorites carId },
         FavResponse.ok "Car favorited" (toggle u.favorites carId)) ∧
      findById (saveUser store userId { u with favorites := toggle u.favorites carId })
          userId = some { u with favorites := toggle u.favorites carId }) ∧
    toggle [] "r1" = ["r1"] ∧ toggle ["r1"] "r1" = [] ∧ toggle ["r1"] "r2" = ["r1", "r2"] := by
  refine ⟨?_, ?_, ?_, ?_, by decide, by decide, by decide⟩
  · intro hr hmem
    rcases (mem_toggle r S r).mp hmem with h | h
    · exact h.2 rfl
    · exact h.2 hr
  · intro hr
    exact (mem_toggle r S r).mpr (Or.inr ⟨rfl, hr⟩)
  · intro x hx
    rw [mem_toggle]
    constructor
    · intro h
      rcases h with h | h
      · exact h.1
      · exact absurd h.1 hx
    · intro h
      exact Or.inl ⟨h, hx⟩
  · intro store carId userId u h
    constructor
    · simp [favoriteCarHandler, h]
    · exact findById_saveUser store userId _ (by simp [h])

/-- Closed instance of C1 discharging its hypotheses at concrete inputs. -/
theorem favoriteToggle_correct_witness :
    ("a" : String) ∈ ["a"] ∧ ("a" : String) ∉ toggle ["a"] "a" :=
  ⟨by decide, (favoriteToggle_correct ["a"] "a").1 (by decide)⟩

/-- C2: toggling the same id twice restores the favorite set: same elements as
a finite set, and membership is pointwise unchanged (the list representative
may move the toggled id to the end, but the unordered set is restored). -/
theorem toggle_twice_restores (S : List String) (r : String) :
    (toggle (toggle S r) r).toFinset = S.toFinset ∧
    ∀ x, x ∈ toggle (toggle S r) r ↔ x ∈ S := by
  have hmem : ∀ x, x ∈ toggle (toggle S r) r ↔ x ∈ S := by
    intro x
    by_cases hx : x = r
    · subst hx
      by_cases hr : x ∈ S <;> simp [mem_toggle, hr]
    · simp only [mem_toggle, ne_eq, hx, not_false_eq_true, and_true, false_and, or_false]
  refine ⟨?_, hmem⟩
  ext a
  simp [List.mem_toFinset, hmem a]

/-- C3: after any sequence of toggles starting from the empty favorites list,
every resource id occurs at most once in the persisted list. -/
theorem favorites_no_duplicates (ops : List String) (x : String) :
    (ops.foldl toggle []).count x ≤ 1 :=
  List.nodup_iff_count_le_one.mp (foldl_toggle_nodup ops [] List.nodup_nil) x

/-- C4: a toggle request whose body userId resolves to no user answers 404
"User not found" and leaves the store unchanged. -/
theorem favoriteToggle_user_not_found (store : Store) (carId userId : String)
    (saveOk : Bool) (h : findById store userId = none) :
    favoriteCarHandler store carId userId saveOk =
      (store, FavResponse.notFound404 "User not found") := by
  simp [favoriteCarHandler, h]

/-- Closed instance of C4 at a concrete unknown user. -/
theorem favoriteToggle_user_not_found_witness :
    findById demoStore "ghost" = none ∧
      favoriteCarHandler demoStore "c1" "ghost" true =
        (demoStore, FavResponse.notFound404 "User not found") :=
  ⟨by decide, favoriteToggle_user_not_found demoStore "c1" "ghost" true (by decide)⟩

/-- C5: when persistence fails the store is never changed, and when the user
exists (so a toggle was computed in memory) the caller gets the storage
failure response: the in-memory toggle is discarded, no partial write. -/
theorem favoriteToggle_save_failure (store : Store) (carId userId : String) :
    (favoriteCarHandler store carId userId false).1 = store ∧
    ∀ u, findById store userId = some u →
      (favoriteCarHandler store carId userId false).2 =
        FavResponse.error500 "Error updating favorite status" := by
  constructor
  · unfold favoriteCarHandler
    cases h : findById store userId <;> simp
  · intro u h
    simp [favoriteCarHandler, h]

/-- Closed instance of C5 at a concrete user. -/
theorem favoriteToggle_save_failure_witness :
    findById demoStore "u1" = some annUser ∧
      (favoriteCarHandler demoStore "c1" "u1" false).2 =
        FavResponse.error500 "Error updating favorite status" :=
  ⟨by decide, (favoriteToggle_save_failure demoStore "c1" "u1").2 annUser (by decide)⟩

/-- C7: a token issued for an identity verifies, under the same key, to that
identity at every instant before its expiry. -/
theorem token_round_trip (identityId key : String) (now ttl t : Nat)
    (h : t < now + ttl) :
    verify (issue identityId key now ttl) key t = Except.ok identityId := by
  simp [verify, issue, Nat.not_le.mpr h]

/-- Closed instance of C7: issuance at instant 0 with ttl 7 verifies at 0. -/
theorem token_round_trip_witness :
    (0 : Nat) < 0 + 7 ∧
      verify (issue "u1" "k" 0 7) "k" 0 = Except.ok "u1" :=
  ⟨by decide, token_round_trip "u1" "k" 0 7 0 (by decide)⟩

/-- C8 fails on the code: the catch blocks of POST /sellACar and POST /signup
leave an error that is neither a ValidationError nor (for signup) a
duplicate-key error without any response, so the request hangs instead of
receiving an explicit failure answer. -/
theorem catch_blocks_silent_no_response :
    sellACarCatch { name := "MongoServerError", code := 0, message := "connection lost" } = none ∧
      signupCatch { name := "MongoNetworkError", code := 0, message := "connection lost" } = none := by
  decide

/-- C6: on the protected routes, a missing session carrier, a failed token
verification, and a verified token naming a vanished identity are each
rejected with the corresponding error before any protected logic runs, on
GET /getUser and GET /favorites; a Session Gate rejection stops
PATCH /favoriteCar entirely; and only a verified token naming a stored
identity yields the admitted response. -/
theorem sessionChecks_reject (store : Store) (cars : CarStore) (key : String)
    (now : Nat) (cookieJwt : Option Token) :
    (getUserHandler store none key now = GetUserResponse.notAuthenticated ∧
      favoritesHandler store cars none key now = FavListResponse.mustLogIn) ∧
    (∀ t e, cookieJwt = some t → verify t key now = Except.error e →
      getUserHandler store cookieJwt key now = GetUserResponse.invalidOrExpired401 ∧
      favoritesHandler store cars cookieJwt key now = FavListResponse.invalidToken401) ∧
    (∀ t id, cookieJwt = some t → verify t key now = Except.ok id →
      findById store id = none →
      getUserHandler store cookieJwt key now = GetUserResponse.userGone404) ∧
    (∀ doc, getUserHandler store cookieJwt key now = GetUserResponse.currentUser doc ↔
      ∃ t id u, cookieJwt = some t ∧ verify t key now = Except.ok id ∧
        findById store id = some u ∧ doc = fullDoc u) ∧
    (∀ carId userId saveOk,
      (∀ id, sessionGate store cookieJwt key now ≠ GateResult.authenticated id) →
      favoriteCarRoute store cookieJwt key now carId userId saveOk = none) := by
  refine ⟨⟨rfl, rfl⟩, ?_, ?_, ?_, ?_⟩
  · rintro t e rfl hv
    exact ⟨by simp [getUserHandler, hv], by simp [favoritesHandler, hv]⟩
  · rintro t id rfl hv hf
    simp [getUserHandler, hv, getUserFetch, hf]
  · intro doc
    cases cookieJwt with
    | none => simp [getUserHandler]
    | some t =>
      cases hv : verify t key now with
      | error e => simp [getUserHandler, hv]
      | ok id =>
        cases hf : findById store id with
        | none => simp [getUserHandler, hv, getUserFetch, hf]
        | some u => simp [getUserHandler, hv, getUserFetch, hf, eq_comm]
  · intro carId userId saveOk hrej
    unfold favoriteCarRoute
    cases hg : sessionGate store cookieJwt key now with
    | noSession => rfl
    | invalidSession e => rfl
    | identityGone => rfl
    | authenticated id => exact absurd hg (hrej id)

/-- Closed instance of C6: a token signed under the wrong key is rejected by
both protected reads. -/
theorem sessionChecks_reject_witness :
    getUserHandler demoStore (some badToken) "k" 0 = GetUserResponse.invalidOrExpired401 ∧
      favoritesHandler demoStore [] (some badToken) "k" 0 = FavListResponse.invalidToken401 :=
  (sessionChecks_reject demoStore [] "k" 0 (some badToken)).2.1 badToken
    VerificationError.badSignature rfl rfl

/-- C9 fails on the code: GET /getUser fetches without any field exclusion and
answers the full document, so the credential appears in its response at this
concrete store, where the claim says /getUser's fetch excludes it. -/
theorem getUser_exposes_password :
    getUserHandler demoStore (some (issue "u1" "k" 0 7)) "k" 0 =
      GetUserResponse.currentUser (fullDoc annUser) ∧
      (fullDoc annUser).password = some "p1" := by
  exact ⟨by decide, rfl⟩

/-- C9 amended: the credential is excluded only in GET /favorites' first fetch
(the req.user attachment through `.select("-password")`); GET /getUser's fetch
and GET /favorites' re-fetch keep it, so /getUser's response carries the
credential while /favorites answers only the populated favorites. -/
theorem password_exclusion_paths (store : Store) (id : String) (u : User)
    (h : findById store id = some u) :
    favoritesFirstFetch store id = some (selectNoPassword u) ∧
    (selectNoPassword u).password = none ∧
    getUserFetch store id = some (fullDoc u) ∧
    favoritesRefetch store id = some (fullDoc u) ∧
    (fullDoc u).password = some u.password := by
  simp [favoritesFirstFetch, favoritesRefetch, getUserFetch, h, selectNoPassword, fullDoc]

/-- Closed instance of the amended C9 at a concrete user. -/
theorem password_exclusion_paths_witness :
    findById demoStore "u1" = some annUser ∧
      favoritesFirstFetch demoStore "u1" = some (selectNoPassword annUser) :=
  ⟨by decide, (password_exclusion_paths demoStore "u1" annUser (by decide)).1⟩

/-- C10: the identity read and mutated by PATCH /favoriteCar/:carId comes
solely from the request body's userId: two admitted requests equal in body
and carId but carrying session tokens verifying to different identities
produce the same store change and the same response, namely the handler run
on the body's userId. -/
theorem favoriteToggle_ignores_session (store : Store) (key : String) (now : Nat)
    (t1 t2 : Token) (id1 id2 : String) (carId userId : String) (saveOk : Bool)
    (hv1 : verify t1 key now = Except.ok id1) (hu1 : (findById store id1).isSome)
    (hv2 : verify t2 key now = Except.ok id2) (hu2 : (findById store id2).isSome) :
    favoriteCarRoute store (some t1) key now carId userId saveOk =
      favoriteCarRoute store (some t2) key now carId userId saveOk ∧
    favoriteCarRoute store (some t1) key now carId userId saveOk =
      some (favoriteCarHandler store carId userId saveOk) := by
  obtain ⟨u1, hq1⟩ := Option.isSome_iff_exists.mp hu1
  obtain ⟨u2, hq2⟩ := Option.isSome_iff_exists.mp hu2
  constructor <;> simp [favoriteCarRoute, sessionGate, hv1, hv2, hq1, hq2]

/-- Closed instance of C10: sessions naming ann and bob drive the same toggle
on the user named in the body. -/
theorem favoriteToggle_ignores_session_witness :
    favoriteCarRoute demoStore (some (issue "u1" "k" 0 7)) "k" 0 "c1" "u1" true =
      favoriteCarRoute demoStore (some (issue "u2" "k" 0 7)) "k" 0 "c1" "u1" true :=
  (favoriteToggle_ignores_session demoStore "k" 0 (issue "u1" "k" 0 7)
    (issue "u2" "k" 0 7) "u1" "u2" "c1" "u1" true
    rfl (by decide) rfl (by decide)).1
